import Mathlib

/-!
Verification of the `go-start` service container (`framework/container.go`).

The container maps string keys to service providers and to cached singleton
instances.  We give a shallow embedding: Go maps become association lists,
the `interface{}` instances produced by provider factories become `Value`s
stamped with a fresh allocation identifier (Go object identity), and the
fallible operations return `Except String`.  Provider hooks (`Boot`,
`Params`, the factory returned by `Register`) are modelled as deterministic
data on the provider: `Boot` either fails with a message or succeeds,
`Params` yields a fixed default argument list, and the factory either fails
with a message (possibly depending on its arguments) or allocates a fresh
instance recording the arguments it was built with.  Every hook invocation
is logged in an event trace so that invocation counts and ordering can be
stated.
-/

set_option autoImplicit false

namespace GoStart

/-- A factory argument (`interface{}` parameter in Go). -/
inductive Param where
  | str (s : String)
  | nat (n : Nat)
deriving DecidableEq, Repr

/-- An instance produced by a provider factory (`interface{}` in Go).
`id` is the Go object identity: factories allocate, so each successful
factory invocation yields a value with a fresh `id`.  `builtWith` records
the argument list the factory was invoked with. -/
structure Value where
  id : Nat
  builtWith : List Param
deriving DecidableEq, Repr

/-- The `ServiceProvider` contract: `Name`, `IsDefer`, and the three hooks
modelled as deterministic outcomes.  `bootResult = some e` means `Boot`
returns the error `e`; `none` means it succeeds.  `params` is the output of
the `Params` hook.  `factoryErr ps = some e` means the factory returned by
`Register` fails with `e` when invoked with arguments `ps`; `none` means it
succeeds and allocates a fresh instance. -/
structure ServiceProvider where
  name : String
  isDefer : Bool
  bootResult : Option String
  params : List Param
  factoryErr : List Param → Option String

/-- One hook invocation, recorded in the event trace. -/
inductive Event where
  | boot (key : String)
  | paramsHook (key : String)
  | factory (key : String) (args : List Param)
deriving DecidableEq, Repr

/-- Association-list lookup, the embedding of Go map indexing. -/
def lookup {α : Type} : List (String × α) → String → Option α
  | [], _ => none
  | (k', v) :: rest, k => if k' = k then some v else lookup rest k

/-- Association-list overwrite-insert, the embedding of Go map assignment
(`m[key] = v`): the binding for `key` is replaced if present, appended
otherwise. -/
def insert {α : Type} : List (String × α) → String → α → List (String × α)
  | [], k, v => [(k, v)]
  | (k', v') :: rest, k, v =>
      if k' = k then (k, v) :: rest else (k', v') :: insert rest k v

/-- The container state (`StartContainer`): the `providers` and `instances`
maps, plus `nextId`, the allocation counter instrumenting Go object
identity (every id ever handed out is `< nextId`). -/
structure StartContainer where
  providers : List (String × ServiceProvider)
  instances : List (String × Value)
  nextId : Nat

/-- Go `NewStartContainer` creates an empty container. -/
def NewStartContainer : StartContainer :=
  { providers := [], instances := [], nextId := 0 }

/-- Result of a fallible container operation: the Go `(interface{}, error)`
pair, the post-state, and the trace of hook invocations made by the call. -/
structure MakeOut where
  res : Except String Value
  state : StartContainer
  events : List Event

/-- Result of `Bind`: the Go `error`, the post-state, and the hook trace. -/
structure BindOut where
  res : Except String Unit
  state : StartContainer
  events : List Event

/-- Go `findServiceProvider` looks the provider up in the `providers` map and
returns `nil` (here `none`) when the key is absent. -/
def findServiceProvider (s : StartContainer) (key : String) :
    Option ServiceProvider :=
  lookup s.providers key

/-- Go `IsBind(key)` is true iff `findServiceProvider(key) != nil`. -/
def IsBind (s : StartContainer) (key : String) : Bool :=
  (findServiceProvider s key).isSome

/-- Go `newInstance(sp, params)`: run `Boot`; on success, fall back to the
provider's `Params` exactly when the caller-supplied slice is nil
(`params == nil` in Go, `none` here — a non-nil empty slice does not fall
back); obtain the factory from `Register` and invoke it; wrap a factory
error, or return the freshly allocated instance. -/
def newInstance (s : StartContainer) (sp : ServiceProvider)
    (params : Option (List Param)) : MakeOut :=
  match sp.bootResult with
  | some e => { res := .error e, state := s, events := [.boot sp.name] }
  | none =>
    match params with
    | none =>
      match sp.factoryErr sp.params with
      | some e =>
        { res := .error e, state := s
          events := [.boot sp.name, .paramsHook sp.name,
                     .factory sp.name sp.params] }
      | none =>
        { res := .ok { id := s.nextId, builtWith := sp.params }
          state := { s with nextId := s.nextId + 1 }
          events := [.boot sp.name, .paramsHook sp.name,
                     .factory sp.name sp.params] }
    | some ps =>
      match sp.factoryErr ps with
      | some e =>
        { res := .error e, state := s
          events := [.boot sp.name, .factory sp.name ps] }
      | none =>
        { res := .ok { id := s.nextId, builtWith := ps }
          state := { s with nextId := s.nextId + 1 }
          events := [.boot sp.name, .factory sp.name ps] }

/-- Go `make(key, params, forceNew)`: look up the provider (error
`"contract " + key + " have not register"` when absent); if `forceNew`,
delegate to `newInstance` without touching the cache; otherwise return the
cached instance when present, else run `newInstance` with nil params and
cache the result on success. -/
def make (s : StartContainer) (key : String) (params : Option (List Param))
    (forceNew : Bool) : MakeOut :=
  match findServiceProvider s key with
  | none =>
    { res := .error ("contract " ++ key ++ " have not register")
      state := s, events := [] }
  | some sp =>
    if forceNew then newInstance s sp params
    else
      match lookup s.instances key with
      | some ins => { res := .ok ins, state := s, events := [] }
      | none =>
        match newInstance s sp none with
        | { res := .error e, state := st, events := ev } =>
          { res := .error e, state := st, events := ev }
        | { res := .ok inst, state := st, events := ev } =>
          { res := .ok inst
            state := { st with instances := insert st.instances key inst }
            events := ev }

/-- Go `Make(key) = make(key, nil, false)`. -/
def Make (s : StartContainer) (key : String) : MakeOut :=
  make s key none false

/-- Outcome of `MustMake`: a value, or a panic aborting the caller. -/
inductive MustOut where
  | value (v : Value)
  | panicked (msg : String)
deriving DecidableEq, Repr

/-- Result of `MustMake`: outcome, post-state, hook trace. -/
structure MustMakeOut where
  res : MustOut
  state : StartContainer
  events : List Event

/-- Go `MustMake(key)`: like `Make` but panics
(`"container not contain key " + key`) instead of returning an error. -/
def MustMake (s : StartContainer) (key : String) : MustMakeOut :=
  match make s key none false with
  | { res := .ok v, state := st, events := ev } =>
    { res := .value v, state := st, events := ev }
  | { res := .error _, state := st, events := ev } =>
    { res := .panicked ("container not contain key " ++ key)
      state := st, events := ev }

/-- Go `MakeNew(key, params) = make(key, params, true)`.  The Go argument is a
nilable slice, so `params` here is again an `Option`. -/
def MakeNew (s : StartContainer) (key : String)
    (params : Option (List Param)) : MakeOut :=
  make s key params true

/-- Go `Bind(provider)`: install the provider under its name (overwriting any
previous binding) before anything else; then, unless the provider is
deferred, eagerly run `Boot`, `Params`, `Register` and the factory, caching
the instance on success and returning the error otherwise (the provider
mapping stays installed either way). -/
def Bind (s : StartContainer) (p : ServiceProvider) : BindOut :=
  if p.isDefer then
    { res := .ok ()
      state := { s with providers := insert s.providers p.name p }
      events := [] }
  else
    match p.bootResult with
    | some e =>
      { res := .error e
        state := { s with providers := insert s.providers p.name p }
        events := [.boot p.name] }
    | none =>
      match p.factoryErr p.params with
      | some e =>
        { res := .error e
          state := { s with providers := insert s.providers p.name p }
          events := [.boot p.name, .paramsHook p.name,
                     .factory p.name p.params] }
      | none =>
        { res := .ok ()
          state := { providers := insert s.providers p.name p
                     instances := insert s.instances p.name
                       { id := s.nextId, builtWith := p.params }
                     nextId := s.nextId + 1 }
          events := [.boot p.name, .paramsHook p.name,
                     .factory p.name p.params] }

deriving instance DecidableEq for Except

/-- Number of factory invocations for `key` recorded in a trace. -/
def factoryCount (ev : List Event) (key : String) : Nat :=
  (ev.filter fun e =>
    match e with
    | .factory k _ => k == key
    | _ => false).length

/-- Number of `Boot` invocations for `key` recorded in a trace. -/
def bootCount (ev : List Event) (key : String) : Nat :=
  (ev.filter fun e =>
    match e with
    | .boot k => k == key
    | _ => false).length

/-- Number of `Params`-hook invocations for `key` recorded in a trace. -/
def paramsCount (ev : List Event) (key : String) : Nat :=
  (ev.filter fun e =>
    match e with
    | .paramsHook k => k == key
    | _ => false).length

section AssocList

variable {α : Type}

theorem lookup_insert_self (m : List (String × α)) (k : String) (v : α) :
    lookup (insert m k v) k = some v := by
  induction m with
  | nil => simp [insert, lookup]
  | cons hd tl ih =>
    obtain ⟨k', v'⟩ := hd
    by_cases h : k' = k
    · simp [insert, lookup, h]
    · simp [insert, lookup, h, ih]

theorem lookup_insert_ne (m : List (String × α)) (k k' : String) (v : α)
    (h : k ≠ k') : lookup (insert m k v) k' = lookup m k' := by
  induction m with
  | nil => simp [insert, lookup, h]
  | cons hd tl ih =>
    obtain ⟨a, b⟩ := hd
    by_cases ha : a = k
    · subst ha
      simp [insert, lookup, h]
    · simp [insert, lookup, ha, ih]

/-- Overwrite-insert never makes a key unresolvable. -/
theorem isSome_lookup_insert (m : List (String × α)) (k k' : String) (v : α)
    (h : (lookup m k').isSome) : (lookup (insert m k v) k').isSome := by
  by_cases hk : k = k'
  · subst hk
    simp [lookup_insert_self]
  · rwa [lookup_insert_ne m k k' v hk]

end AssocList

section NewInstanceLemmas

variable (s : StartContainer) (sp : ServiceProvider) (ps : Option (List Param))

/-- The unified pipeline never touches the instances cache. -/
theorem newInstance_instances :
    (newInstance s sp ps).state.instances = s.instances := by
  unfold newInstance
  split
  · rfl
  · split
    · split <;> rfl
    · split <;> rfl

/-- The unified pipeline never touches the providers map. -/
theorem newInstance_providers :
    (newInstance s sp ps).state.providers = s.providers := by
  unfold newInstance
  split
  · rfl
  · split
    · split <;> rfl
    · split <;> rfl

/-- A failed pipeline leaves the state completely unchanged. -/
theorem newInstance_error_state (e : String)
    (h : (newInstance s sp ps).res = .error e) :
    (newInstance s sp ps).state = s := by
  unfold newInstance at h ⊢
  split at h <;> try rfl
  rename_i hb
  split at h
  · split at h <;> simp_all
  · split at h <;> simp_all

/-- A successful pipeline returns the freshly allocated instance: its id is
the allocation counter of the pre-state. -/
theorem newInstance_ok_id (v : Value)
    (h : (newInstance s sp ps).res = .ok v) : v.id = s.nextId := by
  unfold newInstance at h
  split at h
  · simp_all
  · split at h
    · split at h
      · simp_all
      · simp only [Except.ok.injEq] at h
        rw [← h]
    · split at h
      · simp_all
      · simp only [Except.ok.injEq] at h
        rw [← h]

/-- A successful pipeline bumps the allocation counter by one. -/
theorem newInstance_ok_nextId (v : Value)
    (h : (newInstance s sp ps).res = .ok v) :
    (newInstance s sp ps).state.nextId = s.nextId + 1 := by
  unfold newInstance at h ⊢
  split at h <;> try simp_all
  split at h
  · split at h <;> simp_all
  · split at h <;> simp_all

/-- The allocation counter never decreases across the pipeline. -/
theorem newInstance_nextId_le :
    s.nextId ≤ (newInstance s sp ps).state.nextId := by
  unfold newInstance
  split
  · exact le_refl _
  · split
    · split
      · exact le_refl _
      · exact Nat.le_succ _
    · split
      · exact le_refl _
      · exact Nat.le_succ _

/-- Trace of a pipeline whose `Boot` hook fails: only the `Boot` call. -/
theorem newInstance_events_boot_err (e : String) (h : sp.bootResult = some e) :
    (newInstance s sp ps).events = [.boot sp.name] := by
  unfold newInstance
  rw [h]

/-- Trace of a pipeline with nil caller params and a successful `Boot`:
`Boot`, then the `Params` hook, then the factory on the default params. -/
theorem newInstance_events_defaulted (h : sp.bootResult = none) :
    (newInstance s sp none).events =
      [.boot sp.name, .paramsHook sp.name, .factory sp.name sp.params] := by
  unfold newInstance
  rw [h]
  rcases hf : sp.factoryErr sp.params with _ | e <;> simp [hf]

/-- Trace of a pipeline with a non-nil caller-supplied parameter list and a
successful `Boot`: `Boot`, then the factory on exactly that list — the
`Params` hook is never consulted, even when the list is empty. -/
theorem newInstance_events_supplied (l : List Param)
    (h : sp.bootResult = none) :
    (newInstance s sp (some l)).events =
      [.boot sp.name, .factory sp.name l] := by
  unfold newInstance
  rw [h]
  rcases hf : sp.factoryErr l with _ | e <;> simp [hf]

/-- Go `Boot` is the first hook every pipeline attempt invokes. -/
theorem newInstance_events_head :
    (newInstance s sp ps).events.head? = some (.boot sp.name) := by
  rcases hb : sp.bootResult with _ | e
  · rcases ps with _ | l
    · rw [newInstance_events_defaulted s sp hb]
      rfl
    · rw [newInstance_events_supplied s sp l hb]
      rfl
  · rw [newInstance_events_boot_err s sp ps e hb]
    rfl

/-- Every pipeline attempt invokes `Boot` exactly once. -/
theorem newInstance_bootCount :
    bootCount (newInstance s sp ps).events sp.name = 1 := by
  rcases hb : sp.bootResult with _ | e
  · rcases ps with _ | l
    · rw [newInstance_events_defaulted s sp hb]
      simp [bootCount, List.filter]
    · rw [newInstance_events_supplied s sp l hb]
      simp [bootCount, List.filter]
  · rw [newInstance_events_boot_err s sp ps e hb]
    simp [bootCount, List.filter]

/-- A single pipeline attempt invokes the factory at most once, for any
key. -/
theorem newInstance_factoryCount_le (k : String) :
    factoryCount (newInstance s sp ps).events k ≤ 1 := by
  rcases hb : sp.bootResult with _ | e
  · rcases ps with _ | l
    · rw [newInstance_events_defaulted s sp hb]
      cases hk : sp.name == k <;> simp [factoryCount, List.filter, hk]
    · rw [newInstance_events_supplied s sp l hb]
      cases hk : sp.name == k <;> simp [factoryCount, List.filter, hk]
  · rw [newInstance_events_boot_err s sp ps e hb]
    simp [factoryCount, List.filter]

/-- A pipeline attempt whose `Boot` succeeds invokes the factory exactly
once (whether or not the factory itself then fails). -/
theorem newInstance_factoryCount_eq (h : sp.bootResult = none) :
    factoryCount (newInstance s sp ps).events sp.name = 1 := by
  rcases ps with _ | l
  · rw [newInstance_events_defaulted s sp h]
    simp [factoryCount, List.filter]
  · rw [newInstance_events_supplied s sp l h]
    simp [factoryCount, List.filter]

end NewInstanceLemmas

section MakeLemmas

variable (s : StartContainer) (key : String) (ps : Option (List Param))
  (forceNew : Bool) (sp : ServiceProvider)

/-- Go `make` on an unbound key: the "contract … have not register" error,
state untouched, no hooks invoked. -/
theorem make_unbound (h : findServiceProvider s key = none) :
    make s key ps forceNew =
      { res := .error ("contract " ++ key ++ " have not register")
        state := s, events := [] } := by
  simp [make, h]

/-- Forced instantiation delegates to the pipeline without touching the
cache. -/
theorem make_force (h : findServiceProvider s key = some sp) :
    make s key ps true = newInstance s sp ps := by
  simp [make, h]

/-- Singleton resolution with a cached instance: the cached value is
returned as-is, the state is untouched and no hook runs. -/
theorem make_hit (v : Value) (h : findServiceProvider s key = some sp)
    (hi : lookup s.instances key = some v) :
    make s key ps false = { res := .ok v, state := s, events := [] } := by
  simp [make, h, hi]

/-- Singleton resolution on a cache miss, pipeline failing: the error is
propagated and the (unchanged) pipeline state is kept — nothing cached. -/
theorem make_miss_error (e : String) (h : findServiceProvider s key = some sp)
    (hi : lookup s.instances key = none)
    (he : (newInstance s sp none).res = .error e) :
    make s key ps false =
      { res := .error e, state := (newInstance s sp none).state
        events := (newInstance s sp none).events } := by
  rcases hni : newInstance s sp none with ⟨r, st, ev⟩
  rw [hni] at he
  simp only at he
  subst he
  simp [make, h, hi, hni]

/-- Singleton resolution on a cache miss, pipeline succeeding: the fresh
instance is cached under the key and returned. -/
theorem make_miss_ok (v : Value) (h : findServiceProvider s key = some sp)
    (hi : lookup s.instances key = none)
    (hv : (newInstance s sp none).res = .ok v) :
    make s key ps false =
      { res := .ok v
        state := { (newInstance s sp none).state with
                    instances :=
                      insert (newInstance s sp none).state.instances key v }
        events := (newInstance s sp none).events } := by
  rcases hni : newInstance s sp none with ⟨r, st, ev⟩
  rw [hni] at hv
  simp only at hv
  subst hv
  simp [make, h, hi, hni]

/-- Go `make` never touches the providers map. -/
theorem make_providers :
    (make s key ps forceNew).state.providers = s.providers := by
  rcases h : findServiceProvider s key with _ | sp
  · rw [make_unbound s key ps forceNew h]
  · cases forceNew
    · rcases hi : lookup s.instances key with _ | v
      · rcases hr : (newInstance s sp none).res with v | e
        · rw [make_miss_error s key ps sp v h hi hr]
          exact newInstance_providers s sp none
        · rw [make_miss_ok s key ps sp e h hi hr]
          exact newInstance_providers s sp none
      · rw [make_hit s key ps sp v h hi]
    · rw [make_force s key ps sp h]
      exact newInstance_providers s sp ps

/-- A failed `make` leaves the container state completely unchanged, so the
next resolution attempt re-runs the full pipeline from scratch. -/
theorem make_error_state (e : String)
    (h : (make s key ps forceNew).res = .error e) :
    (make s key ps forceNew).state = s := by
  rcases hp : findServiceProvider s key with _ | sp
  · rw [make_unbound s key ps forceNew hp]
  · cases forceNew
    · rcases hi : lookup s.instances key with _ | v
      · rcases hr : (newInstance s sp none).res with v | e'
        · rw [make_miss_error s key ps sp v hp hi hr]
          exact newInstance_error_state s sp none v hr
        · rw [make_miss_ok s key ps sp e' hp hi hr] at h
          simp at h
      · rw [make_hit s key ps sp v hp hi] at h
        simp at h
    · rw [make_force s key ps sp hp] at h ⊢
      exact newInstance_error_state s sp ps e h

end MakeLemmas

section BindLemmas

variable (s : StartContainer) (p : ServiceProvider)

/-- Binding a deferred provider: success, no hook invoked, only the
provider mapping changes. -/
theorem Bind_defer (h : p.isDefer = true) :
    Bind s p =
      { res := .ok ()
        state := { s with providers := insert s.providers p.name p }
        events := [] } := by
  simp [Bind, h]

/-- Eager bind whose `Boot` fails: the error is returned, the provider
mapping is installed anyway, and nothing else changes. -/
theorem Bind_eager_boot_err (e : String) (hd : p.isDefer = false)
    (hb : p.bootResult = some e) :
    Bind s p =
      { res := .error e
        state := { s with providers := insert s.providers p.name p }
        events := [.boot p.name] } := by
  simp [Bind, hd, hb]

/-- Eager bind whose factory fails: the (message-preserving re-wrapped)
error is returned, the provider mapping is installed anyway, and the
instances cache is untouched. -/
theorem Bind_eager_factory_err (e : String) (hd : p.isDefer = false)
    (hb : p.bootResult = none) (hf : p.factoryErr p.params = some e) :
    Bind s p =
      { res := .error e
        state := { s with providers := insert s.providers p.name p }
        events := [.boot p.name, .paramsHook p.name,
                   .factory p.name p.params] } := by
  simp [Bind, hd, hb, hf]

/-- Successful eager bind: the provider mapping is installed and the fresh
instance is cached under the provider's name as the singleton. -/
theorem Bind_eager_ok (hd : p.isDefer = false) (hb : p.bootResult = none)
    (hf : p.factoryErr p.params = none) :
    Bind s p =
      { res := .ok ()
        state := { providers := insert s.providers p.name p
                   instances := insert s.instances p.name
                     { id := s.nextId, builtWith := p.params }
                   nextId := s.nextId + 1 }
        events := [.boot p.name, .paramsHook p.name,
                   .factory p.name p.params] } := by
  simp [Bind, hd, hb, hf]

/-- Go `Bind` installs the provider mapping under its name, unconditionally
(before and independently of the eager pipeline). -/
theorem Bind_providers :
    (Bind s p).state.providers = insert s.providers p.name p := by
  cases hd : p.isDefer
  · rcases hb : p.bootResult with _ | e
    · rcases hf : p.factoryErr p.params with _ | e
      · rw [Bind_eager_ok s p hd hb hf]
      · rw [Bind_eager_factory_err s p e hd hb hf]
    · rw [Bind_eager_boot_err s p e hd hb]
  · rw [Bind_defer s p hd]

/-- Go `Bind` never removes an instances-cache entry: any key resolvable in
the cache before stays resolvable after. -/
theorem Bind_instances_isSome (k : String)
    (h : (lookup s.instances k).isSome) :
    (lookup (Bind s p).state.instances k).isSome := by
  cases hd : p.isDefer
  · rcases hb : p.bootResult with _ | e
    · rcases hf : p.factoryErr p.params with _ | e
      · rw [Bind_eager_ok s p hd hb hf]
        exact isSome_lookup_insert s.instances p.name k _ h
      · rw [Bind_eager_factory_err s p e hd hb hf]
        exact h
    · rw [Bind_eager_boot_err s p e hd hb]
      exact h
  · rw [Bind_defer s p hd]
    exact h

/-- A failed `Bind` (eager `Boot` or factory failure) leaves the instances
cache unchanged — no partial caching. -/
theorem Bind_error_instances (e : String) (h : (Bind s p).res = .error e) :
    (Bind s p).state.instances = s.instances := by
  cases hd : p.isDefer
  · rcases hb : p.bootResult with _ | e'
    · rcases hf : p.factoryErr p.params with _ | e'
      · rw [Bind_eager_ok s p hd hb hf] at h
        simp at h
      · rw [Bind_eager_factory_err s p e' hd hb hf]
    · rw [Bind_eager_boot_err s p e' hd hb]
  · rw [Bind_defer s p hd]

/-- The allocation counter never decreases across `Bind`. -/
theorem Bind_nextId_le : s.nextId ≤ (Bind s p).state.nextId := by
  cases hd : p.isDefer
  · rcases hb : p.bootResult with _ | e
    · rcases hf : p.factoryErr p.params with _ | e
      · rw [Bind_eager_ok s p hd hb hf]
        exact Nat.le_succ _
      · rw [Bind_eager_factory_err s p e hd hb hf]
    · rw [Bind_eager_boot_err s p e hd hb]
  · rw [Bind_defer s p hd]

/-- Trace of an eager (non-deferred) bind whose `Boot` fails: only the
`Boot` call — neither `Params` nor the factory runs. -/
theorem Bind_events_boot_err (e : String) (hd : p.isDefer = false)
    (h : p.bootResult = some e) :
    (Bind s p).events = [.boot p.name] := by
  simp [Bind, hd, h]

/-- Trace of an eager bind whose `Boot` succeeds: `Boot`, then the `Params`
hook, then the factory on the default params. -/
theorem Bind_events_boot_ok (hd : p.isDefer = false)
    (h : p.bootResult = none) :
    (Bind s p).events =
      [.boot p.name, .paramsHook p.name, .factory p.name p.params] := by
  rcases hf : p.factoryErr p.params with _ | e <;> simp [Bind, hd, h, hf]

end BindLemmas

/-!
## Reachable container states

`Reachable s` says `s` arises from `NewStartContainer` by a finite sequence
of the public operations: `Bind`, and `make` with arbitrary arguments —
which covers `Make` (nil params, not forced), `MustMake` (same state
evolution) and `MakeNew` (forced).  `IsBind` does not change the state.
-/

/-- States reachable from the empty container by the public operations. -/
inductive Reachable : StartContainer → Prop where
  | init : Reachable NewStartContainer
  | bind (p : ServiceProvider) {s : StartContainer} :
      Reachable s → Reachable (Bind s p).state
  | makeOp (key : String) (ps : Option (List Param)) (forceNew : Bool)
      {s : StartContainer} :
      Reachable s → Reachable (make s key ps forceNew).state

/-- States reachable from the empty container by the public operations
without ever binding a provider whose name is `key`. -/
inductive ReachableNoBind (key : String) : StartContainer → Prop where
  | init : ReachableNoBind key NewStartContainer
  | bind (p : ServiceProvider) {s : StartContainer} (hne : p.name ≠ key) :
      ReachableNoBind key s → ReachableNoBind key (Bind s p).state
  | makeOp (k : String) (ps : Option (List Param)) (forceNew : Bool)
      {s : StartContainer} :
      ReachableNoBind key s → ReachableNoBind key (make s k ps forceNew).state

/-- Allocation-identity invariant: every cached instance carries an id that
was handed out before the current value of the counter, so a fresh
allocation can never collide with a cached instance. -/
def IdsFresh (s : StartContainer) : Prop :=
  ∀ k v, lookup s.instances k = some v → v.id < s.nextId

/-- Cache/provider invariant: every key with a cached instance has a bound
provider. -/
def InstBound (s : StartContainer) : Prop :=
  ∀ k, (lookup s.instances k).isSome → (lookup s.providers k).isSome

theorem idsFresh_bind (s : StartContainer) (p : ServiceProvider)
    (h : IdsFresh s) : IdsFresh (Bind s p).state := by
  intro k v hv
  cases hd : p.isDefer
  · rcases hb : p.bootResult with _ | e
    · rcases hf : p.factoryErr p.params with _ | e
      · rw [Bind_eager_ok s p hd hb hf] at hv ⊢
        simp only at hv ⊢
        by_cases hk : p.name = k
        · subst hk
          rw [lookup_insert_self] at hv
          injection hv with hv
          rw [← hv]
          exact Nat.lt_succ_self _
        · rw [lookup_insert_ne s.instances p.name k _ hk] at hv
          exact Nat.lt_succ_of_lt (h k v hv)
      · rw [Bind_eager_factory_err s p e hd hb hf] at hv ⊢
        exact h k v hv
    · rw [Bind_eager_boot_err s p e hd hb] at hv ⊢
      exact h k v hv
  · rw [Bind_defer s p hd] at hv ⊢
    exact h k v hv

theorem idsFresh_make (s : StartContainer) (key : String)
    (ps : Option (List Param)) (forceNew : Bool)
    (h : IdsFresh s) : IdsFresh (make s key ps forceNew).state := by
  rcases hp : findServiceProvider s key with _ | sp
  · rw [make_unbound s key ps forceNew hp]
    exact h
  · cases forceNew
    · rcases hi : lookup s.instances key with _ | v
      · rcases hr : (newInstance s sp none).res with v | w
        · rw [make_miss_error s key ps sp v hp hi hr]
          intro k u hu
          rw [newInstance_instances] at hu
          exact lt_of_lt_of_le (h k u hu) (newInstance_nextId_le s sp none)
        · rw [make_miss_ok s key ps sp w hp hi hr]
          intro k u hu
          simp only at hu
          have hnext := newInstance_ok_nextId s sp none w hr
          by_cases hk : key = k
          · subst hk
            rw [lookup_insert_self] at hu
            injection hu with hu
            rw [← hu, newInstance_ok_id s sp none w hr, hnext]
            exact Nat.lt_succ_self _
          · rw [lookup_insert_ne _ key k _ hk, newInstance_instances] at hu
            rw [hnext]
            exact Nat.lt_succ_of_lt (h k u hu)
      · rw [make_hit s key ps sp v hp hi]
        exact h
    · rw [make_force s key ps sp hp]
      intro k u hu
      rw [newInstance_instances] at hu
      exact lt_of_lt_of_le (h k u hu) (newInstance_nextId_le s sp ps)

/-- Every reachable container state satisfies the allocation-identity
invariant. -/
theorem idsFresh_of_reachable (s : StartContainer) (h : Reachable s) :
    IdsFresh s := by
  induction h with
  | init => intro k v hv; cases hv
  | bind p _ ih => exact idsFresh_bind _ p ih
  | makeOp key ps forceNew _ ih => exact idsFresh_make _ key ps forceNew ih

theorem instBound_bind (s : StartContainer) (p : ServiceProvider)
    (h : InstBound s) : InstBound (Bind s p).state := by
  intro k hk
  rw [Bind_providers]
  by_cases hke : p.name = k
  · subst hke
    rw [lookup_insert_self]
    rfl
  · rw [lookup_insert_ne s.providers p.name k p hke]
    refine h k ?_
    unfold Bind at hk
    split at hk
    · exact hk
    · split at hk
      · exact hk
      · split at hk
        · exact hk
        · simp only at hk
          rwa [lookup_insert_ne s.instances p.name k _ hke] at hk

theorem instBound_make (s : StartContainer) (key : String)
    (ps : Option (List Param)) (forceNew : Bool)
    (h : InstBound s) : InstBound (make s key ps forceNew).state := by
  intro k hk
  rw [make_providers]
  rcases hp : findServiceProvider s key with _ | sp
  · rw [make_unbound s key ps forceNew hp] at hk
    exact h k hk
  · cases forceNew
    · rcases hi : lookup s.instances key with _ | v
      · rcases hr : (newInstance s sp none).res with v | w
        · rw [make_miss_error s key ps sp v hp hi hr] at hk
          simp only [newInstance_instances] at hk
          exact h k hk
        · rw [make_miss_ok s key ps sp w hp hi hr] at hk
          simp only at hk
          by_cases hke : key = k
          · subst hke
            unfold findServiceProvider at hp
            rw [hp]
            rfl
          · rw [lookup_insert_ne _ key k _ hke, newInstance_instances] at hk
            exact h k hk
      · rw [make_hit s key ps sp v hp hi] at hk
        exact h k hk
    · rw [make_force s key ps sp hp] at hk
      rw [newInstance_instances] at hk
      exact h k hk

/-- Every reachable container state satisfies the cache/provider
invariant. -/
theorem instBound_of_reachable (s : StartContainer) (h : Reachable s) :
    InstBound s := by
  induction h with
  | init => intro k hk; cases hk
  | bind p _ ih => exact instBound_bind _ p ih
  | makeOp key ps forceNew _ ih => exact instBound_make _ key ps forceNew ih

section MoreMakeLemmas

variable (s : StartContainer) (key : String) (ps : Option (List Param))
  (forceNew : Bool) (sp : ServiceProvider)

/-- On a cache miss the singleton path's trace is exactly the pipeline's
trace, whether the pipeline succeeds or fails. -/
theorem make_miss_events (h : findServiceProvider s key = some sp)
    (hi : lookup s.instances key = none) :
    (make s key ps false).events = (newInstance s sp none).events := by
  rcases hr : (newInstance s sp none).res with e | v
  · rw [make_miss_error s key ps sp e h hi hr]
  · rw [make_miss_ok s key ps sp v h hi hr]

/-- One `make` call invokes the factory at most once, for any key. -/
theorem make_factoryCount_le (k : String) :
    factoryCount (make s key ps forceNew).events k ≤ 1 := by
  rcases hp : findServiceProvider s key with _ | sp
  · rw [make_unbound s key ps forceNew hp]
    exact Nat.zero_le _
  · cases forceNew
    · rcases hi : lookup s.instances key with _ | v
      · rw [make_miss_events s key ps sp hp hi]
        exact newInstance_factoryCount_le s sp none k
      · rw [make_hit s key ps sp v hp hi]
        exact Nat.zero_le _
    · rw [make_force s key ps sp hp]
      exact newInstance_factoryCount_le s sp ps k

/-- After a successful singleton resolution, resolving the same key again
returns the very same cached instance, changes nothing, and runs no hook at
all. -/
theorem make_after_ok (v : Value)
    (h : (make s key none false).res = Except.ok v) :
    make (make s key none false).state key none false =
      { res := Except.ok v, state := (make s key none false).state
        events := [] } := by
  rcases hp : findServiceProvider s key with _ | sp
  · rw [make_unbound s key none false hp] at h
    simp at h
  · rcases hi : lookup s.instances key with _ | w
    · rcases hr : (newInstance s sp none).res with e | w
      · rw [make_miss_error s key none sp e hp hi hr] at h
        simp at h
      · have heq := make_miss_ok s key none sp w hp hi hr
        rw [heq] at h
        simp only [Except.ok.injEq] at h
        subst h
        rw [heq]
        have hp1 : findServiceProvider
            { (newInstance s sp none).state with
               instances :=
                 insert (newInstance s sp none).state.instances key w }
            key = some sp := by
          show lookup (newInstance s sp none).state.providers key = some sp
          rw [newInstance_providers]
          exact hp
        have hi1 : lookup
            ({ (newInstance s sp none).state with
                instances :=
                  insert (newInstance s sp none).state.instances key w
             } : StartContainer).instances key = some w :=
          lookup_insert_self _ key w
        exact make_hit _ key none sp w hp1 hi1
    · have heq := make_hit s key none sp w hp hi
      rw [heq] at h
      simp only [Except.ok.injEq] at h
      subst h
      rw [heq]
      exact make_hit s key none sp w hp hi

/-- Factory invocations add up across concatenated traces. -/
theorem factoryCount_append (a b : List Event) (k : String) :
    factoryCount (a ++ b) k = factoryCount a k + factoryCount b k := by
  simp [factoryCount, List.filter_append]

end MoreMakeLemmas

/-!
## Concrete providers and states for closed checks

The checks instantiate the theorems on small concrete providers, mirroring
the provider scenarios of the specification (factories allocate a fresh
object each call). -/

/-- A deferred provider whose hooks all succeed; default params `["d"]`. -/
def okProvider : ServiceProvider :=
  { name := "k", isDefer := true, bootResult := none
    params := [.str "d"], factoryErr := fun _ => none }

/-- A second provider for the same key, with different default params. -/
def okProvider2 : ServiceProvider :=
  { name := "k", isDefer := true, bootResult := none
    params := [.str "e"], factoryErr := fun _ => none }

/-- A deferred provider whose factory always fails. -/
def pFailFactory : ServiceProvider :=
  { name := "k", isDefer := true, bootResult := none
    params := [], factoryErr := fun _ => some "factory boom" }

/-- An eager (non-deferred) provider whose `Boot` hook fails. -/
def pBootErr : ServiceProvider :=
  { name := "kb", isDefer := false, bootResult := some "boot fail"
    params := [], factoryErr := fun _ => none }

/-- A deferred provider whose `Boot` hook fails. -/
def pDeferBootErr : ServiceProvider :=
  { name := "k", isDefer := true, bootResult := some "boot fail"
    params := [], factoryErr := fun _ => none }

/-- An eager provider whose hooks all succeed. -/
def pEagerOk : ServiceProvider :=
  { name := "k", isDefer := false, bootResult := none
    params := [.str "d"], factoryErr := fun _ => none }

/-- Container with `okProvider` bound (deferred, so nothing cached). -/
def okState : StartContainer := (Bind NewStartContainer okProvider).state

/-- Container with the always-failing-factory provider bound. -/
def cexState : StartContainer :=
  (Bind NewStartContainer pFailFactory).state

/-!
## The claims
-/

/-- C1, counterexample.  The claim says that for every key with a bound
provider, two consecutive `Make(key)` calls return the identical cached
instance with the factory invoked at most once across both calls.  For a
bound provider whose factory fails, nothing is ever cached, both calls
return errors, and the factory is invoked by each call — twice in total —
so the claim as stated is false at this input. -/
theorem C1_counterexample :
    IsBind cexState "k" = true ∧
    ¬ factoryCount
        ((Make cexState "k").events ++
          (Make (Make cexState "k").state "k").events) "k" ≤ 1 := by
  decide

/-- C1, amended: for every key whose first `Make` succeeds, the second of
two consecutive `Make(key)` calls (no intervening `Bind`) returns the
identical cached instance, changes nothing, and the factory is invoked at
most once across both calls. -/
theorem C1_theorem (s : StartContainer) (key : String) (v : Value)
    (h : (Make s key).res = Except.ok v) :
    (Make (Make s key).state key).res = Except.ok v ∧
    (Make (Make s key).state key).state = (Make s key).state ∧
    factoryCount
      ((Make s key).events ++ (Make (Make s key).state key).events)
      key ≤ 1 := by
  unfold Make at h ⊢
  have h2 := make_after_ok s key v h
  refine ⟨?_, ?_, ?_⟩
  · rw [h2]
  · rw [h2]
  · rw [h2, factoryCount_append]
    have : factoryCount
        ({ res := Except.ok v, state := (make s key none false).state
           events := [] } : MakeOut).events key = 0 := rfl
    rw [this, Nat.add_zero]
    exact make_factoryCount_le s key none false key

/-- C1, witness: the amended idempotence at a concrete deferred provider
whose pipeline succeeds. -/
theorem C1_witness :
    (Make (Make okState "k").state "k").res =
      Except.ok { id := 0, builtWith := [Param.str "d"] } ∧
    (Make (Make okState "k").state "k").state = (Make okState "k").state ∧
    factoryCount
      ((Make okState "k").events ++ (Make (Make okState "k").state "k").events)
      "k" ≤ 1 :=
  C1_theorem okState "k" { id := 0, builtWith := [Param.str "d"] } rfl

/-- C2: in every reachable state, `MakeNew(key, params)` leaves the whole
instances cache unchanged, and when it produces an instance, a subsequent
`Make(key)` never returns that instance — it returns either the
pre-existing singleton or a freshly constructed one. -/
theorem C2_theorem (s : StartContainer) (key : String)
    (ps : Option (List Param)) (hr : Reachable s) :
    (MakeNew s key ps).state.instances = s.instances ∧
    (∀ v w, (MakeNew s key ps).res = Except.ok v →
      (Make (MakeNew s key ps).state key).res = Except.ok w → w ≠ v) := by
  unfold MakeNew Make
  rcases hp : findServiceProvider s key with _ | sp
  · rw [make_unbound s key ps true hp]
    refine ⟨rfl, ?_⟩
    intro v w hv _
    simp at hv
  · rw [make_force s key ps sp hp]
    refine ⟨newInstance_instances s sp ps, ?_⟩
    intro v w hv hw
    have hvid : v.id = s.nextId := newInstance_ok_id s sp ps v hv
    have hnext : (newInstance s sp ps).state.nextId = s.nextId + 1 :=
      newInstance_ok_nextId s sp ps v hv
    have hprov : findServiceProvider (newInstance s sp ps).state key
        = some sp := by
      unfold findServiceProvider
      rw [newInstance_providers]
      exact hp
    have hwid : w.id ≠ v.id := by
      rcases hi : lookup (newInstance s sp ps).state.instances key
        with _ | u
      · rcases hr2 : (newInstance (newInstance s sp ps).state sp none).res
          with e | u
        · rw [make_miss_error _ key none sp e hprov hi hr2] at hw
          simp at hw
        · rw [make_miss_ok _ key none sp u hprov hi hr2] at hw
          simp only [Except.ok.injEq] at hw
          have hu : u.id = (newInstance s sp ps).state.nextId :=
            newInstance_ok_id _ sp none u hr2
          rw [← hw, hu, hnext, hvid]
          exact Nat.succ_ne_self _
      · rw [make_hit _ key none sp u hprov hi] at hw
        simp only [Except.ok.injEq] at hw
        rw [newInstance_instances] at hi
        have hlt := idsFresh_of_reachable s hr key u hi
        rw [← hw, hvid]
        exact Nat.ne_of_lt hlt
    exact fun hwv => hwid (congrArg Value.id hwv)

/-- C2, witness: at the concrete bound provider, `MakeNew` with an explicit
parameter list caches nothing, and the following `Make` returns a different
instance. -/
theorem C2_witness :
    (MakeNew okState "k" (some [])).state.instances = okState.instances ∧
    ({ id := 1, builtWith := [Param.str "d"] } : Value) ≠
      ({ id := 0, builtWith := [] } : Value) :=
  ⟨(C2_theorem okState "k" (some [])
      (Reachable.bind okProvider Reachable.init)).1,
   (C2_theorem okState "k" (some [])
      (Reachable.bind okProvider Reachable.init)).2
     { id := 0, builtWith := [] } { id := 1, builtWith := [Param.str "d"] }
     rfl rfl⟩

/-- C3, counterexample.  The claim says `MakeNew` with an empty parameter
list invokes the factory with the provider's default `Params` output.  In
the code the fallback happens only when the Go slice is nil: with a
non-nil empty parameter list the factory is invoked with zero arguments,
not with the default params `["d"]`. -/
theorem C3_counterexample :
    okProvider.params = [Param.str "d"] ∧
    (MakeNew okState "k" (some [])).events =
      [Event.boot "k", Event.factory "k" []] ∧
    Event.factory "k" okProvider.params ∉
      (MakeNew okState "k" (some [])).events := by
  decide

/-- C3, amended: for a bound provider whose `Boot` succeeds, `MakeNew` with
a non-nil caller-supplied parameter list (empty or not) invokes the factory
with exactly that list and never consults the `Params` hook, while `MakeNew`
with a nil parameter list consults `Params` and invokes the factory with
the provider's default output. -/
theorem C3_theorem (s : StartContainer) (key : String)
    (sp : ServiceProvider) (l : List Param)
    (hp : findServiceProvider s key = some sp)
    (hb : sp.bootResult = none) :
    (MakeNew s key (some l)).events =
      [Event.boot sp.name, Event.factory sp.name l] ∧
    (MakeNew s key none).events =
      [Event.boot sp.name, Event.paramsHook sp.name,
       Event.factory sp.name sp.params] := by
  unfold MakeNew
  rw [make_force s key (some l) sp hp, make_force s key none sp hp]
  exact ⟨newInstance_events_supplied s sp l hb,
         newInstance_events_defaulted s sp hb⟩

/-- C3, witness: the amended parameter-selection behaviour at the concrete
provider. -/
theorem C3_witness :
    (MakeNew okState "k" (some [Param.str "x"])).events =
      [Event.boot "k", Event.factory "k" [Param.str "x"]] ∧
    (MakeNew okState "k" none).events =
      [Event.boot "k", Event.paramsHook "k",
       Event.factory "k" [Param.str "d"]] :=
  C3_theorem okState "k" okProvider [Param.str "x"] rfl rfl

/-- C4: resolving an unbound key via `Make` yields the
"contract … have not register" error — an error whose message contains the
key — and `MustMake` on the same key panics instead of returning. -/
theorem C4_theorem (s : StartContainer) (key : String)
    (h : IsBind s key = false) :
    (Make s key).res =
      Except.error ("contract " ++ key ++ " have not register") ∧
    (∃ a b, (Make s key).res = Except.error (a ++ key ++ b)) ∧
    (MustMake s key).res =
      MustOut.panicked ("container not contain key " ++ key) := by
  have hp : findServiceProvider s key = none := by
    unfold IsBind at h
    rcases hfp : findServiceProvider s key with _ | sp
    · rfl
    · rw [hfp] at h
      simp at h
  refine ⟨?_, ⟨"contract ", " have not register", ?_⟩, ?_⟩
  · unfold Make
    rw [make_unbound s key none false hp]
  · unfold Make
    rw [make_unbound s key none false hp]
  · unfold MustMake
    rw [make_unbound s key none false hp]

/-- C4, witness: the unbound-key behaviour on the empty container. -/
theorem C4_witness :
    IsBind NewStartContainer "x" = false ∧
    ((Make NewStartContainer "x").res =
       Except.error ("contract " ++ "x" ++ " have not register") ∧
     (∃ a b, (Make NewStartContainer "x").res =
       Except.error (a ++ "x" ++ b)) ∧
     (MustMake NewStartContainer "x").res =
       MustOut.panicked ("container not contain key " ++ "x")) :=
  ⟨rfl, C4_theorem NewStartContainer "x" rfl⟩

/-- C5: resolution errors are atomic — a failed `make` (any of the
`Make`/`MustMake`/`MakeNew` paths) leaves the state completely unchanged, a
failed eager `Bind` leaves the instances cache unchanged, and after a
failed `Make` the repeated call re-runs the identical full pipeline (same
result, state and hook trace). -/
theorem C5_theorem :
    (∀ (s : StartContainer) (key : String) (ps : Option (List Param))
       (forceNew : Bool) (e : String),
       (make s key ps forceNew).res = Except.error e →
       (make s key ps forceNew).state = s) ∧
    (∀ (s : StartContainer) (p : ServiceProvider) (e : String),
       (Bind s p).res = Except.error e →
       (Bind s p).state.instances = s.instances) ∧
    (∀ (s : StartContainer) (key : String) (e : String),
       (Make s key).res = Except.error e →
       make (Make s key).state key none false = Make s key) := by
  refine ⟨make_error_state, Bind_error_instances, ?_⟩
  intro s key e h
  unfold Make at h ⊢
  rw [make_error_state s key none false e h]

/-- C5, witness: a factory failure under `Make` and a `Boot` failure under
eager `Bind`, both leaving no cached instance. -/
theorem C5_witness :
    (Make cexState "k").res = Except.error "factory boom" ∧
    (Make cexState "k").state = cexState ∧
    (Bind NewStartContainer pBootErr).res = Except.error "boot fail" ∧
    (Bind NewStartContainer pBootErr).state.instances =
      NewStartContainer.instances ∧
    make (Make cexState "k").state "k" none false = Make cexState "k" :=
  ⟨rfl,
   C5_theorem.1 cexState "k" none false "factory boom" rfl,
   rfl,
   C5_theorem.2.1 NewStartContainer pBootErr "boot fail" rfl,
   C5_theorem.2.2 cexState "k" "factory boom" rfl⟩

/-- C6: `IsBind(key)` is false in every state reached without ever binding
a provider named `key`, and is true immediately after any `Bind` of a
provider — regardless of deferred status and regardless of whether the
eager pipeline succeeded (the mapping is installed before the pipeline
runs). -/
theorem C6_theorem :
    (∀ (key : String) (s : StartContainer),
       ReachableNoBind key s → IsBind s key = false) ∧
    (∀ (s : StartContainer) (p : ServiceProvider),
       IsBind (Bind s p).state p.name = true) := by
  constructor
  · intro key s h
    induction h with
    | init => rfl
    | bind p hne _ ih =>
      unfold IsBind findServiceProvider at ih ⊢
      rw [Bind_providers, lookup_insert_ne _ p.name key p hne]
      exact ih
    | makeOp k ps forceNew _ ih =>
      unfold IsBind findServiceProvider at ih ⊢
      rw [make_providers]
      exact ih
  · intro s p
    unfold IsBind findServiceProvider
    rw [Bind_providers, lookup_insert_self]
    rfl

/-- C6, witness: unbound on the empty container; bound right after a
`Bind` whose eager pipeline failed. -/
theorem C6_witness :
    IsBind NewStartContainer "k" = false ∧
    IsBind (Bind NewStartContainer pBootErr).state "kb" = true ∧
    (Bind NewStartContainer pBootErr).res = Except.error "boot fail" :=
  ⟨C6_theorem.1 "k" NewStartContainer ReachableNoBind.init,
   C6_theorem.2 NewStartContainer pBootErr,
   rfl⟩

/-- C7, counterexample.  The claim says that for every deferred provider,
after the first `Make` exactly one factory invocation has occurred.  For a
deferred provider whose `Boot` hook fails, the first `Make` does run the
pipeline (the `Boot` event is traced) but the factory is invoked zero
times, so the claim as stated is false at this input. -/
theorem C7_counterexample :
    pDeferBootErr.isDefer = true ∧
    factoryCount (Bind NewStartContainer pDeferBootErr).events "k" = 0 ∧
    (Make (Bind NewStartContainer pDeferBootErr).state "k").events ≠ [] ∧
    ¬ factoryCount
        ((Bind NewStartContainer pDeferBootErr).events ++
          (Make (Bind NewStartContainer pDeferBootErr).state "k").events)
        "k" = 1 := by
  decide

/-- C7, amended: binding a deferred provider invokes no hook at all,
succeeds, and caches nothing; and when no instance is already cached for
its key, the first `Make` runs the pipeline (one `Boot` invocation), with
exactly one factory invocation provided `Boot` succeeds. -/
theorem C7_theorem (s : StartContainer) (p : ServiceProvider)
    (hd : p.isDefer = true) :
    (Bind s p).events = [] ∧
    (Bind s p).res = Except.ok () ∧
    (Bind s p).state.instances = s.instances ∧
    (lookup s.instances p.name = none →
      bootCount (Make (Bind s p).state p.name).events p.name = 1 ∧
      (p.bootResult = none →
        factoryCount (Make (Bind s p).state p.name).events p.name = 1)) := by
  rw [Bind_defer s p hd]
  refine ⟨rfl, rfl, rfl, ?_⟩
  intro hi
  have hp1 : findServiceProvider
      ({ s with providers := insert s.providers p.name p }) p.name
      = some p := by
    show lookup (insert s.providers p.name p) p.name = some p
    exact lookup_insert_self s.providers p.name p
  have hi1 : lookup
      ({ s with providers := insert s.providers p.name p } :
        StartContainer).instances p.name = none := hi
  have hev : (Make { s with providers := insert s.providers p.name p }
      p.name).events =
      (newInstance { s with providers := insert s.providers p.name p }
        p none).events := by
    unfold Make
    exact make_miss_events _ p.name none p hp1 hi1
  rw [hev]
  constructor
  · exact newInstance_bootCount _ p none
  · intro hb
    exact newInstance_factoryCount_eq _ p none hb

/-- C7, witness: the amended deferred-laziness at a concrete provider with
succeeding hooks. -/
theorem C7_witness :
    (Bind NewStartContainer okProvider).events = [] ∧
    bootCount (Make (Bind NewStartContainer okProvider).state "k").events
      "k" = 1 ∧
    factoryCount (Make (Bind NewStartContainer okProvider).state "k").events
      "k" = 1 :=
  ⟨(C7_theorem NewStartContainer okProvider rfl).1,
   ((C7_theorem NewStartContainer okProvider rfl).2.2.2 rfl).1,
   ((C7_theorem NewStartContainer okProvider rfl).2.2.2 rfl).2 rfl⟩

/-- C8: every instantiation attempt — the unified pipeline `newInstance`
(reached lazily from `Make`/`MakeNew`, as the last conjunct shows) and the
eager path inside `Bind` — invokes `Boot` exactly once, as the very first
hook of the attempt; and when `Boot` fails the trace is just that `Boot`
call, so neither `Params` nor the factory runs. -/
theorem C8_theorem :
    (∀ (s : StartContainer) (sp : ServiceProvider)
       (ps : Option (List Param)),
       bootCount (newInstance s sp ps).events sp.name = 1 ∧
       (newInstance s sp ps).events.head? = some (Event.boot sp.name) ∧
       (∀ e, sp.bootResult = some e →
         (newInstance s sp ps).events = [Event.boot sp.name])) ∧
    (∀ (s : StartContainer) (p : ServiceProvider), p.isDefer = false →
       bootCount (Bind s p).events p.name = 1 ∧
       (Bind s p).events.head? = some (Event.boot p.name) ∧
       (∀ e, p.bootResult = some e →
         (Bind s p).events = [Event.boot p.name])) ∧
    (∀ (s : StartContainer) (key : String) (ps : Option (List Param))
       (sp : ServiceProvider), findServiceProvider s key = some sp →
       (MakeNew s key ps).events = (newInstance s sp ps).events ∧
       (lookup s.instances key = none →
         (Make s key).events = (newInstance s sp none).events)) := by
  refine ⟨?_, ?_, ?_⟩
  · intro s sp ps
    exact ⟨newInstance_bootCount s sp ps, newInstance_events_head s sp ps,
           fun e he => newInstance_events_boot_err s sp ps e he⟩
  · intro s p hd
    rcases hb : p.bootResult with _ | e
    · rw [Bind_events_boot_ok s p hd hb]
      refine ⟨by simp [bootCount, List.filter], rfl, ?_⟩
      intro e he
      exact Option.noConfusion he
    · rw [Bind_events_boot_err s p e hd hb]
      exact ⟨by simp [bootCount, List.filter], rfl, fun _ _ => rfl⟩
  · intro s key ps sp hp
    constructor
    · unfold MakeNew
      rw [make_force s key ps sp hp]
    · intro hi
      unfold Make
      exact make_miss_events s key none sp hp hi

/-- C8, witness: the pipeline ordering at a concrete provider, the eager
`Bind` trace of a provider whose `Boot` fails, and the lazy delegation. -/
theorem C8_witness :
    bootCount (newInstance okState okProvider none).events "k" = 1 ∧
    bootCount (Bind NewStartContainer pBootErr).events "kb" = 1 ∧
    (Bind NewStartContainer pBootErr).events = [Event.boot "kb"] ∧
    (MakeNew okState "k" none).events =
      (newInstance okState okProvider none).events :=
  ⟨(C8_theorem.1 okState okProvider none).1,
   (C8_theorem.2.1 NewStartContainer pBootErr rfl).1,
   (C8_theorem.2.1 NewStartContainer pBootErr rfl).2.2 "boot fail" rfl,
   (C8_theorem.2.2 okState "k" none okProvider rfl).1⟩

/-- C9: rebinding an already-bound key unconditionally overwrites the
provider entry (last bind wins) and clears no cached instance; after a
deferred rebind the instances cache is exactly as before, forced
resolutions (`MakeNew`) run the new provider's pipeline, and `Make` on a
key whose singleton was cached under the old provider still returns the
stale cached instance. -/
theorem C9_theorem (s : StartContainer) (p₂ : ServiceProvider)
    (_hb : IsBind s p₂.name = true) :
    lookup (Bind s p₂).state.providers p₂.name = some p₂ ∧
    (∀ k, (lookup s.instances k).isSome →
      (lookup (Bind s p₂).state.instances k).isSome) ∧
    (p₂.isDefer = true →
      (Bind s p₂).state.instances = s.instances ∧
      (∀ ps, MakeNew (Bind s p₂).state p₂.name ps =
        newInstance (Bind s p₂).state p₂ ps) ∧
      (∀ v, lookup s.instances p₂.name = some v →
        Make (Bind s p₂).state p₂.name =
          { res := Except.ok v, state := (Bind s p₂).state
            events := [] })) := by
  refine ⟨?_, ?_, ?_⟩
  · rw [Bind_providers, lookup_insert_self]
  · intro k hk
    exact Bind_instances_isSome s p₂ k hk
  · intro hd
    rw [Bind_defer s p₂ hd]
    have hp1 : findServiceProvider
        ({ s with providers := insert s.providers p₂.name p₂ }) p₂.name
        = some p₂ := by
      show lookup (insert s.providers p₂.name p₂) p₂.name = some p₂
      exact lookup_insert_self s.providers p₂.name p₂
    refine ⟨rfl, ?_, ?_⟩
    · intro ps
      unfold MakeNew
      exact make_force _ p₂.name ps p₂ hp1
    · intro v hv
      unfold Make
      exact make_hit _ p₂.name none p₂ v hp1 hv

/-- C9, witness: bind `okProvider`, resolve once (caching id 0), rebind the
same key with `okProvider2`; the provider entry is replaced, the stale
singleton survives and `Make` still returns it. -/
theorem C9_witness :
    lookup (Bind (Make okState "k").state okProvider2).state.providers "k"
      = some okProvider2 ∧
    (Bind (Make okState "k").state okProvider2).state.instances =
      (Make okState "k").state.instances ∧
    MakeNew (Bind (Make okState "k").state okProvider2).state "k"
        (some []) =
      newInstance (Bind (Make okState "k").state okProvider2).state
        okProvider2 (some []) ∧
    Make (Bind (Make okState "k").state okProvider2).state "k" =
      { res := Except.ok { id := 0, builtWith := [Param.str "d"] }
        state := (Bind (Make okState "k").state okProvider2).state
        events := [] } :=
  ⟨(C9_theorem (Make okState "k").state okProvider2 rfl).1,
   ((C9_theorem (Make okState "k").state okProvider2 rfl).2.2 rfl).1,
   ((C9_theorem (Make okState "k").state okProvider2 rfl).2.2 rfl).2.1
     (some []),
   ((C9_theorem (Make okState "k").state okProvider2 rfl).2.2 rfl).2.2
     { id := 0, builtWith := [Param.str "d"] } rfl⟩

/-- C10: in every container state reachable from `NewStartContainer` by
`Bind`/`Make`/`MustMake`/`MakeNew`/`IsBind`, every key with a cached
instance also has a bound provider. -/
theorem C10_theorem (s : StartContainer) (h : Reachable s) (key : String)
    (hk : (lookup s.instances key).isSome) :
    (lookup s.providers key).isSome :=
  instBound_of_reachable s h key hk

/-- C10, witness: the invariant at a reachable state with a cached
instance (an eager bind that instantiated immediately). -/
theorem C10_witness :
    (lookup (Bind NewStartContainer pEagerOk).state.instances "k").isSome
      = true ∧
    (lookup (Bind NewStartContainer pEagerOk).state.providers "k").isSome
      = true :=
  ⟨rfl,
   C10_theorem (Bind NewStartContainer pEagerOk).state
     (Reachable.bind pEagerOk Reachable.init) "k" (by rfl)⟩

end GoStart
